import Mathlib

/-!
Shallow embedding of the multi-PowerDNS fan-out orchestrator of
`backend/app/services/multi_powerdns.py` and the PowerDNS settings
registry of `backend/app/services/settings.py`, together with proofs
about the behaviour the specification describes.

Python wall-clock timestamps (`time.time()`, a float) are modelled as
integer clock readings passed explicitly to each operation that reads the clock;
Python ints become `Nat` where the code only ever stores non-negative
counters, and `Int` for database ids.
-/

/-- Circuit breaker states (`CircuitState` in `multi_powerdns.py`). -/
inductive CircuitState where
  | closed
  | opened
  | halfOpen
deriving DecidableEq, Repr

/-- `CircuitBreaker` dataclass: per-server failure/success counters with
time-based recovery (`multi_powerdns.py` lines 25-59). -/
structure CircuitBreaker where
  failure_threshold : Nat := 5
  recovery_timeout : Nat := 60
  failure_count : Nat := 0
  last_failure_time : ℤ := 0
  state : CircuitState := CircuitState.closed
  successful_calls : Nat := 0
deriving DecidableEq, Repr

namespace CircuitBreaker

/-- `CircuitBreaker.can_execute`, with `time.time()` passed as `now`.
Returns the boolean together with the (possibly updated) breaker,
because the Python method mutates `self.state` in the OPEN branch. -/
def can_execute (cb : CircuitBreaker) (now : ℤ) : Bool × CircuitBreaker :=
  match cb.state with
  | CircuitState.closed => (true, cb)
  | CircuitState.opened =>
      if now - cb.last_failure_time > (cb.recovery_timeout : ℤ) then
        (true, { cb with state := CircuitState.halfOpen })
      else
        (false, cb)
  | CircuitState.halfOpen => (true, cb)

/-- `CircuitBreaker.record_success`. -/
def record_success (cb : CircuitBreaker) : CircuitBreaker :=
  let cb1 := { cb with failure_count := 0, successful_calls := cb.successful_calls + 1 }
  if cb1.state = CircuitState.halfOpen then
    { cb1 with state := CircuitState.closed }
  else
    cb1

/-- `CircuitBreaker.record_failure`, with `time.time()` passed as `now`. -/
def record_failure (cb : CircuitBreaker) (now : ℤ) : CircuitBreaker :=
  let cb1 := { cb with failure_count := cb.failure_count + 1, last_failure_time := now }
  if cb1.failure_count ≥ cb1.failure_threshold then
    { cb1 with state := CircuitState.opened }
  else
    cb1

end CircuitBreaker

/-- One entry of `MultiPowerDNSResult.results` (the dict appended by
`add_result`); the opaque `result` payload is modelled as a string. -/
structure ResultEntry where
  server_name : String
  server_id : Int
  success : Bool
  result : Option String
  error : Option String
  response_time_ms : ℤ
  timestamp : ℤ
deriving DecidableEq, Repr

/-- `MultiPowerDNSResult`: aggregated outcome of a multi-server
operation (`multi_powerdns.py` lines 62-120). -/
structure MultiPowerDNSResult where
  results : List ResultEntry := []
  success_count : Nat := 0
  failure_count : Nat := 0
  total_servers : Nat := 0
  execution_time_ms : ℤ := 0
deriving DecidableEq, Repr

namespace MultiPowerDNSResult

/-- The freshly constructed `MultiPowerDNSResult()`. -/
def empty : MultiPowerDNSResult := {}

/-- `MultiPowerDNSResult.add_result`; the `timestamp: time.time()` the
Python code stores in the entry is passed as `now`. -/
def add_result (r : MultiPowerDNSResult) (server_name : String) (server_id : Int)
    (success : Bool) (result : Option String := none) (error : Option String := none)
    (response_time_ms : ℤ := 0) (now : ℤ := 0) : MultiPowerDNSResult :=
  { r with
    results := r.results ++
      [⟨server_name, server_id, success, result, error, response_time_ms, now⟩]
    success_count := if success then r.success_count + 1 else r.success_count
    failure_count := if success then r.failure_count else r.failure_count + 1
    total_servers := r.total_servers + 1 }

/-- Property `is_partial_success`: `0 < self.success_count < self.total_servers`. -/
def is_partial_success (r : MultiPowerDNSResult) : Bool :=
  decide (0 < r.success_count ∧ r.success_count < r.total_servers)

/-- Property `is_complete_success`: `success_count == total_servers and total_servers > 0`. -/
def is_complete_success (r : MultiPowerDNSResult) : Bool :=
  decide (r.success_count = r.total_servers ∧ 0 < r.total_servers)

/-- Property `is_complete_failure`: `failure_count == total_servers and total_servers > 0`. -/
def is_complete_failure (r : MultiPowerDNSResult) : Bool :=
  decide (r.failure_count = r.total_servers ∧ 0 < r.total_servers)

end MultiPowerDNSResult

/-- One row of the `powerdns_settings` table (`models/settings.py`
plus the `multi_server_mode` column added by the
`add_multi_server_mode` migration and exposed by the schemas). -/
structure PowerDNSSettings where
  id : Int
  name : String
  api_url : String := ""
  api_key : String := ""
  is_default : Bool := false
  is_active : Bool := true
  timeout : Int := 30
  verify_ssl : Bool := true
  multi_server_mode : Bool := false
deriving DecidableEq, Repr

/-- The `ORDER BY is_default DESC, name` comparator of
`get_powerdns_settings`: flagged defaults first, then by name. -/
def settingsOrder (a b : PowerDNSSettings) : Prop :=
  if a.is_default = b.is_default then a.name ≤ b.name else a.is_default = true

instance : DecidableRel settingsOrder := fun a b => by
  unfold settingsOrder
  infer_instance

/-- `PowerDNSSettingsService.get_powerdns_settings` (`services/settings.py`
lines 96-104): `SELECT * FROM powerdns_settings WHERE is_active
ORDER BY is_default DESC, name`. The database table is modelled as the
list `db` of its rows. -/
def get_powerdns_settings (db : List PowerDNSSettings) : List PowerDNSSettings :=
  List.insertionSort settingsOrder (db.filter fun s => s.is_active)

/-- `SELECT ... WHERE is_active ORDER BY id LIMIT 1`: the active row
with the smallest id (the earliest such row on equal ids). -/
def firstActiveById : List PowerDNSSettings → Option PowerDNSSettings
  | [] => none
  | s :: rest =>
    match firstActiveById rest with
    | none => if s.is_active then some s else none
    | some m =>
      if s.is_active then (if s.id ≤ m.id then some s else some m) else some m

/-- `PowerDNSSettingsService.get_default_powerdns_setting`
(`services/settings.py` lines 112-131). `scalar_one_or_none` raises
`MultipleResultsFound` when the default-row query matches more than one
row; that exception is modelled as the `Except.error` branch. -/
def get_default_powerdns_setting (db : List PowerDNSSettings) :
    Except String (Option PowerDNSSettings) :=
  match db.filter fun s => s.is_default && s.is_active with
  | [] => Except.ok (firstActiveById db)
  | [s] => Except.ok (some s)
  | _ => Except.error "MultipleResultsFound"

/-- `MultiPowerDNSService.should_use_multi_server` (`multi_powerdns.py`
lines 137-145): more than one returned setting with
`multi_server_mode and is_active`. -/
def should_use_multi_server (db : List PowerDNSSettings) : Bool :=
  decide (((get_powerdns_settings db).filter
    fun s => s.multi_server_mode && s.is_active).length > 1)

/-- The result the five `*_on_all` wrappers build when single-server mode
is selected but `get_default_powerdns_setting` finds no server:
`result.add_result("No default server", 0, False,
error="No default PowerDNS server configured")`. -/
def no_default_result (now : ℤ) : MultiPowerDNSResult :=
  MultiPowerDNSResult.empty.add_result "No default server" 0 false none
    (some "No default PowerDNS server configured") 0 now

/-- Single-server path common to the five wrappers: the client call
either returns a payload or raises, and exactly one outcome is recorded
(`response_time_ms` is left at its default 0 by the Python call sites). -/
def single_mode_result (s : PowerDNSSettings) (op : Except String String)
    (now : ℤ) : MultiPowerDNSResult :=
  match op with
  | Except.ok v => MultiPowerDNSResult.empty.add_result s.name s.id true (some v) none 0 now
  | Except.error e => MultiPowerDNSResult.empty.add_result s.name s.id false none (some e) 0 now

/-- Mode-selection structure shared verbatim by the five wrappers
`create_zone_on_all`, `add_record_to_all`, `update_record_on_all`,
`delete_record_from_all` and `delete_zone_from_all`
(`multi_powerdns.py` lines 356-560): if `should_use_multi_server` is
false, resolve the default server and run the operation on it alone
(or report the missing default); otherwise delegate to
`execute_on_all_servers`, whose outcome is abstracted as `fanout`. -/
def wrapper_on_all (db : List PowerDNSSettings)
    (op : PowerDNSSettings → Except String String)
    (fanout : MultiPowerDNSResult) (now : ℤ) : Except String MultiPowerDNSResult :=
  if should_use_multi_server db then
    Except.ok fanout
  else
    match get_default_powerdns_setting db with
    | Except.error e => Except.error e
    | Except.ok none => Except.ok (no_default_result now)
    | Except.ok (some s) => Except.ok (single_mode_result s (op s) now)

/-- Completion status of one per-server task of `execute_on_all_servers`
at the moment `asyncio.wait_for` returns: either the
`_execute_on_server_with_metrics` coroutine had produced its result
dict, or the task was still pending. -/
inductive TaskOutcome where
  | completed (success : Bool) (result : Option String) (error : Option String)
      (response_time_ms : ℤ)
  | pending
deriving DecidableEq, Repr

/-- The result-collection stage of
`MultiPowerDNSService.execute_on_all_servers` (`multi_powerdns.py`
lines 243-281): when the overall timeout fired (`timedOut`), the code
replaces the whole `results_list` with
`[Exception("Operation timed out") for _ in tasks]`; each exception is
then recorded through `add_result(..., success=False, error=str(e),
response_time_ms=0)`, while a completed result dict is recorded with
its own fields. Each task is a server `(name, id)` paired with its
`TaskOutcome`; `now` is the timestamp recorded in the entries.
`collectStep` is the body of the result-recording `for` loop. -/
def collectStep (now : ℤ) (acc : MultiPowerDNSResult)
    (t : ((String × Int) × TaskOutcome) ×
      Except String (Bool × Option String × Option String × ℤ)) : MultiPowerDNSResult :=
  match t.2 with
  | Except.ok (ok, res, err, rt) => acc.add_result t.1.1.1 t.1.1.2 ok res err rt now
  | Except.error e => acc.add_result t.1.1.1 t.1.1.2 false none (some e) 0 now

def process_results (tasks : List ((String × Int) × TaskOutcome))
    (timedOut : Bool) (now : ℤ) : MultiPowerDNSResult :=
  let results_list : List (Except String (Bool × Option String × Option String × ℤ)) :=
    if timedOut then
      tasks.map fun _ => Except.error "Operation timed out"
    else
      tasks.map fun t =>
        match t.2 with
        | TaskOutcome.completed ok res err rt => Except.ok (ok, res, err, rt)
        | TaskOutcome.pending => Except.error "Operation timed out"
  (tasks.zip results_list).foldl (collectStep now) MultiPowerDNSResult.empty

/-- Argument record of one `add_result` call. -/
structure AddCall where
  server_name : String
  server_id : Int
  success : Bool
  result : Option String := none
  error : Option String := none
  response_time_ms : ℤ := 0
  now : ℤ := 0
deriving DecidableEq, Repr

/-- Apply one `add_result` call. -/
def applyAdd (r : MultiPowerDNSResult) (c : AddCall) : MultiPowerDNSResult :=
  r.add_result c.server_name c.server_id c.success c.result c.error c.response_time_ms c.now

/-- The `MultiPowerDNSResult` built from a fresh object by a sequence of
`add_result` calls. -/
def buildResult (calls : List AddCall) : MultiPowerDNSResult :=
  calls.foldl applyAdd MultiPowerDNSResult.empty

/-- A sequence of consecutive `record_failure` calls, one per timestamp
in `times`. -/
def iterFailures (cb : CircuitBreaker) (times : List ℤ) : CircuitBreaker :=
  times.foldl CircuitBreaker.record_failure cb

/-- One externally visible circuit-breaker interaction: a failed call,
a successful call, or a `can_execute` check (which may itself move the
state from OPEN to HALF_OPEN). -/
inductive CBOp where
  | fail (now : ℤ)
  | succeed
  | check (now : ℤ)
deriving DecidableEq, Repr

/-- Apply one circuit-breaker interaction. -/
def applyCBOp (cb : CircuitBreaker) : CBOp → CircuitBreaker
  | CBOp.fail now => cb.record_failure now
  | CBOp.succeed => cb.record_success
  | CBOp.check now => (cb.can_execute now).2

/-- Apply a sequence of circuit-breaker interactions. -/
def applyCBOps (cb : CircuitBreaker) (ops : List CBOp) : CircuitBreaker :=
  ops.foldl applyCBOp cb

namespace CircuitBreaker

lemma record_failure_failure_count (cb : CircuitBreaker) (t : ℤ) :
    (cb.record_failure t).failure_count = cb.failure_count + 1 := by
  simp only [record_failure]
  split <;> rfl

lemma record_failure_failure_threshold (cb : CircuitBreaker) (t : ℤ) :
    (cb.record_failure t).failure_threshold = cb.failure_threshold := by
  simp only [record_failure]
  split <;> rfl

lemma record_failure_recovery_timeout (cb : CircuitBreaker) (t : ℤ) :
    (cb.record_failure t).recovery_timeout = cb.recovery_timeout := by
  simp only [record_failure]
  split <;> rfl

lemma record_failure_last_failure_time (cb : CircuitBreaker) (t : ℤ) :
    (cb.record_failure t).last_failure_time = t := by
  simp only [record_failure]
  split <;> rfl

lemma record_failure_state (cb : CircuitBreaker) (t : ℤ) :
    (cb.record_failure t).state =
      if cb.failure_count + 1 ≥ cb.failure_threshold then CircuitState.opened else cb.state := by
  simp only [record_failure]
  split <;> simp_all

end CircuitBreaker

lemma can_execute_effects (cb : CircuitBreaker) (now : ℤ) :
    ((cb.can_execute now).2.failure_count = cb.failure_count ∧
     (cb.can_execute now).2.last_failure_time = cb.last_failure_time ∧
     (cb.can_execute now).2.successful_calls = cb.successful_calls ∧
     (cb.can_execute now).2.failure_threshold = cb.failure_threshold ∧
     (cb.can_execute now).2.recovery_timeout = cb.recovery_timeout) ∧
    ((cb.can_execute now).2.state = cb.state ∨
      (cb.state = CircuitState.opened ∧
       now - cb.last_failure_time > (cb.recovery_timeout : ℤ) ∧
       (cb.can_execute now).2.state = CircuitState.halfOpen ∧
       (cb.can_execute now).1 = true)) := by
  unfold CircuitBreaker.can_execute
  rcases h : cb.state <;> simp [h]
  split <;> simp_all

/-- C2 (amended): `can_execute` leaves every field except `state`
unchanged, and leaves `state` unchanged too except for the
Open-to-Half-Open transition once strictly more than `recovery_timeout`
has elapsed since the last failure; the returned boolean and breaker are
a function of the breaker and the clock alone. -/
theorem can_execute_only_state_transition (cb : CircuitBreaker) (now : ℤ) :
    ((cb.can_execute now).2.failure_count = cb.failure_count ∧
     (cb.can_execute now).2.last_failure_time = cb.last_failure_time ∧
     (cb.can_execute now).2.successful_calls = cb.successful_calls ∧
     (cb.can_execute now).2.failure_threshold = cb.failure_threshold ∧
     (cb.can_execute now).2.recovery_timeout = cb.recovery_timeout) ∧
    ((cb.can_execute now).2.state = cb.state ∨
      (cb.state = CircuitState.opened ∧
       now - cb.last_failure_time > (cb.recovery_timeout : ℤ) ∧
       (cb.can_execute now).2.state = CircuitState.halfOpen ∧
       (cb.can_execute now).1 = true)) :=
  can_execute_effects cb now

/-- C2 (counterexample): on a breaker in the Open state whose recovery
timeout has elapsed, `can_execute` is not side-effect free: it flips the
`state` field to Half-Open. -/
theorem can_execute_mutates_state :
    (({ state := CircuitState.opened } : CircuitBreaker).can_execute 61).2
        ≠ ({ state := CircuitState.opened } : CircuitBreaker) ∧
    (({ state := CircuitState.opened } : CircuitBreaker).can_execute 61).2.state
        = CircuitState.halfOpen := by
  decide

/-- C8: `record_success` zeroes `failure_count`, increments
`successful_calls`, moves the state to Closed exactly when it was
Half-Open (leaving it unchanged otherwise), and touches no other field. -/
theorem record_success_spec (cb : CircuitBreaker) :
    cb.record_success.failure_count = 0 ∧
    cb.record_success.successful_calls = cb.successful_calls + 1 ∧
    cb.record_success.state =
      (if cb.state = CircuitState.halfOpen then CircuitState.closed else cb.state) ∧
    cb.record_success.last_failure_time = cb.last_failure_time ∧
    cb.record_success.failure_threshold = cb.failure_threshold ∧
    cb.record_success.recovery_timeout = cb.recovery_timeout := by
  unfold CircuitBreaker.record_success
  split <;> simp_all

lemma iterFailures_nil (cb : CircuitBreaker) : iterFailures cb [] = cb := rfl

lemma iterFailures_cons (cb : CircuitBreaker) (t : ℤ) (ts : List ℤ) :
    iterFailures cb (t :: ts) = iterFailures (cb.record_failure t) ts := rfl

lemma iterFailures_failure_count (ts : List ℤ) :
    ∀ cb : CircuitBreaker, (iterFailures cb ts).failure_count = cb.failure_count + ts.length := by
  induction ts with
  | nil => intro cb; simp [iterFailures_nil]
  | cons t ts ih =>
    intro cb
    rw [iterFailures_cons, ih, CircuitBreaker.record_failure_failure_count]
    simp
    omega

lemma iterFailures_failure_threshold (ts : List ℤ) :
    ∀ cb : CircuitBreaker, (iterFailures cb ts).failure_threshold = cb.failure_threshold := by
  induction ts with
  | nil => intro cb; rfl
  | cons t ts ih =>
    intro cb
    rw [iterFailures_cons, ih, CircuitBreaker.record_failure_failure_threshold]

lemma iterFailures_recovery_timeout (ts : List ℤ) :
    ∀ cb : CircuitBreaker, (iterFailures cb ts).recovery_timeout = cb.recovery_timeout := by
  induction ts with
  | nil => intro cb; rfl
  | cons t ts ih =>
    intro cb
    rw [iterFailures_cons, ih, CircuitBreaker.record_failure_recovery_timeout]

lemma iterFailures_state_opened (ts : List ℤ) :
    ∀ cb : CircuitBreaker, ts ≠ [] →
      cb.failure_count + ts.length ≥ cb.failure_threshold →
      (iterFailures cb ts).state = CircuitState.opened := by
  induction ts with
  | nil => intro cb h; exact absurd rfl h
  | cons t ts ih =>
    intro cb _ hge
    rcases ts with _ | ⟨t2, ts2⟩
    · have hone : cb.failure_count + 1 ≥ cb.failure_threshold := by
        simpa using hge
      rw [iterFailures_cons, iterFailures_nil, CircuitBreaker.record_failure_state]
      simp [hone]
    · rw [iterFailures_cons]
      apply ih _ (by simp)
      rw [CircuitBreaker.record_failure_failure_count,
        CircuitBreaker.record_failure_failure_threshold]
      simp at hge ⊢
      omega

/-- A circuit breaker as first created (`CircuitBreaker()` dataclass
defaults for the counters and state), with the given thresholds. -/
def freshBreaker (th rt : Nat) (l0 : ℤ) (sc : Nat) : CircuitBreaker :=
  { failure_threshold := th, recovery_timeout := rt, failure_count := 0,
    last_failure_time := l0, state := CircuitState.closed, successful_calls := sc }

/-- C4: from the initial Closed state, exactly `failure_threshold`
consecutive `record_failure` calls open the circuit (`can_execute` is
false while no more than `recovery_timeout` has elapsed since the last
failure); one further `record_failure` leaves `can_execute` false with
`failure_count = failure_threshold + 1` and state Open; and as soon as
strictly more than `recovery_timeout` has elapsed since the last
failure, `can_execute` returns true and moves the breaker to Half-Open
with no further record calls. -/
theorem breaker_threshold_scenario (th rt : Nat) (l0 : ℤ) (sc : Nat)
    (times : List ℤ) (tf : ℤ) (hth : 1 ≤ th) (hlen : times.length = th) :
    (iterFailures (freshBreaker th rt l0 sc) times).state = CircuitState.opened ∧
    (iterFailures (freshBreaker th rt l0 sc) times).failure_count = th ∧
    (∀ now : ℤ,
      ¬ now - (iterFailures (freshBreaker th rt l0 sc) times).last_failure_time > (rt : ℤ) →
      (iterFailures (freshBreaker th rt l0 sc) times).can_execute now
        = (false, iterFailures (freshBreaker th rt l0 sc) times)) ∧
    ((iterFailures (freshBreaker th rt l0 sc) times).record_failure tf).failure_count = th + 1 ∧
    ((iterFailures (freshBreaker th rt l0 sc) times).record_failure tf).state
      = CircuitState.opened ∧
    (∀ now : ℤ, ¬ now - tf > (rt : ℤ) →
      ((iterFailures (freshBreaker th rt l0 sc) times).record_failure tf).can_execute now
        = (false, (iterFailures (freshBreaker th rt l0 sc) times).record_failure tf)) ∧
    (∀ now : ℤ, now - tf > (rt : ℤ) →
      ((iterFailures (freshBreaker th rt l0 sc) times).record_failure tf).can_execute now
        = (true, { (iterFailures (freshBreaker th rt l0 sc) times).record_failure tf with
            state := CircuitState.halfOpen })) := by
  have hth' : (freshBreaker th rt l0 sc).failure_count + times.length
      ≥ (freshBreaker th rt l0 sc).failure_threshold := by
    simp [freshBreaker, hlen]
  have hne : times ≠ [] := by
    intro h
    rw [h] at hlen
    simp at hlen
    omega
  have hstate : (iterFailures (freshBreaker th rt l0 sc) times).state = CircuitState.opened :=
    iterFailures_state_opened times _ hne hth'
  have hcount : (iterFailures (freshBreaker th rt l0 sc) times).failure_count = th := by
    rw [iterFailures_failure_count]
    simp [freshBreaker, hlen]
  have hrt : (iterFailures (freshBreaker th rt l0 sc) times).recovery_timeout = rt := by
    rw [iterFailures_recovery_timeout]
    rfl
  have hthr : (iterFailures (freshBreaker th rt l0 sc) times).failure_threshold = th := by
    rw [iterFailures_failure_threshold]
    rfl
  refine ⟨hstate, hcount, ?_, ?_, ?_, ?_, ?_⟩
  · intro now hnow
    unfold CircuitBreaker.can_execute
    rw [hstate]
    simp only [hrt]
    simp [hnow]
  · rw [CircuitBreaker.record_failure_failure_count, hcount]
  · rw [CircuitBreaker.record_failure_state, hcount, hthr]
    simp
  · intro now hnow
    unfold CircuitBreaker.can_execute
    rw [CircuitBreaker.record_failure_state, hcount, hthr]
    simp only [ge_iff_le, Nat.le_succ, if_true]
    rw [CircuitBreaker.record_failure_last_failure_time,
      CircuitBreaker.record_failure_recovery_timeout, hrt]
    simp [hnow]
  · intro now hnow
    unfold CircuitBreaker.can_execute
    rw [CircuitBreaker.record_failure_state, hcount, hthr]
    simp only [ge_iff_le, Nat.le_succ, if_true]
    rw [CircuitBreaker.record_failure_last_failure_time,
      CircuitBreaker.record_failure_recovery_timeout, hrt]
    simp [hnow]

/-- C4 witness: the concrete scenario with the default threshold 5 and
recovery timeout 60: five failures at time 0, a sixth at time 1, a
blocked check at time 3 and a permitted check at time 62. -/
theorem breaker_threshold_scenario_witness :
    (iterFailures (freshBreaker 5 60 0 0) [0, 0, 0, 0, 0]).state = CircuitState.opened ∧
    (iterFailures (freshBreaker 5 60 0 0) [0, 0, 0, 0, 0]).can_execute 3
      = (false, iterFailures (freshBreaker 5 60 0 0) [0, 0, 0, 0, 0]) ∧
    ((iterFailures (freshBreaker 5 60 0 0) [0, 0, 0, 0, 0]).record_failure 1).failure_count = 6 ∧
    ((iterFailures (freshBreaker 5 60 0 0) [0, 0, 0, 0, 0]).record_failure 1).can_execute 62
      = (true, { (iterFailures (freshBreaker 5 60 0 0) [0, 0, 0, 0, 0]).record_failure 1 with
          state := CircuitState.halfOpen }) := by
  have h := breaker_threshold_scenario 5 60 0 0 [0, 0, 0, 0, 0] 1 (by decide) (by decide)
  exact ⟨h.1, h.2.2.1 3 (by decide), h.2.2.2.1, h.2.2.2.2.2.2 62 (by decide)⟩

/-- Once the circuit has tripped (Open or Half-Open), `failure_count`
has reached the threshold: no operation but `record_success` resets it. -/
def trippedInv (cb : CircuitBreaker) : Prop :=
  cb.state = CircuitState.opened ∨ cb.state = CircuitState.halfOpen →
    cb.failure_count ≥ cb.failure_threshold

lemma trippedInv_record_failure (cb : CircuitBreaker) (t : ℤ)
    (h : trippedInv cb) : trippedInv (cb.record_failure t) := by
  intro hst
  rw [CircuitBreaker.record_failure_failure_count,
    CircuitBreaker.record_failure_failure_threshold]
  rw [CircuitBreaker.record_failure_state] at hst
  by_cases hc : cb.failure_count + 1 ≥ cb.failure_threshold
  · exact hc
  · simp [hc] at hst
    have := h hst
    omega

lemma trippedInv_can_execute (cb : CircuitBreaker) (t : ℤ)
    (h : trippedInv cb) : trippedInv (cb.can_execute t).2 := by
  intro hst
  have hfields := can_execute_effects cb t
  rcases hfields.2 with hsame | ⟨hopen, _, _, _⟩
  · rw [hfields.1.1, hfields.1.2.2.2.1]
    rw [hsame] at hst
    exact h hst
  · rw [hfields.1.1, hfields.1.2.2.2.1]
    exact h (Or.inl hopen)

lemma trippedInv_applyCBOps (ops : List CBOp) :
    ∀ cb : CircuitBreaker, (∀ op ∈ ops, op ≠ CBOp.succeed) →
      trippedInv cb → trippedInv (applyCBOps cb ops) := by
  induction ops with
  | nil => intro cb _ h; exact h
  | cons op ops ih =>
    intro cb hops h
    have hop : op ≠ CBOp.succeed := hops op (by simp)
    have hrest : ∀ o ∈ ops, o ≠ CBOp.succeed := fun o ho => hops o (by simp [ho])
    show trippedInv (applyCBOps (applyCBOp cb op) ops)
    apply ih _ hrest
    cases op with
    | fail t => exact trippedInv_record_failure cb t h
    | succeed => exact absurd rfl hop
    | check t => exact trippedInv_can_execute cb t h

/-- C9: starting from a Closed breaker, any interaction sequence without
`record_success` that leaves the breaker Half-Open (necessarily via the
recovery-timeout transition out of Open) leaves `failure_count` at or
above `failure_threshold`, so the next `record_failure` immediately
returns the breaker to Open. -/
theorem half_open_failure_reopens (cb0 : CircuitBreaker) (ops : List CBOp) (now : ℤ)
    (h0 : cb0.state = CircuitState.closed)
    (hops : ∀ op ∈ ops, op ≠ CBOp.succeed)
    (hhalf : (applyCBOps cb0 ops).state = CircuitState.halfOpen) :
    (applyCBOps cb0 ops).failure_count ≥ (applyCBOps cb0 ops).failure_threshold ∧
    ((applyCBOps cb0 ops).record_failure now).state = CircuitState.opened := by
  have hinv0 : trippedInv cb0 := by
    intro hst
    rw [h0] at hst
    rcases hst with h | h <;> exact absurd h (by simp)
  have hinv := trippedInv_applyCBOps ops cb0 hops hinv0
  have hge := hinv (Or.inr hhalf)
  refine ⟨hge, ?_⟩
  rw [CircuitBreaker.record_failure_state]
  have : (applyCBOps cb0 ops).failure_count + 1 ≥ (applyCBOps cb0 ops).failure_threshold := by
    omega
  simp [this]

/-- C9 witness: five failures at time 0 on a default breaker, then a
`can_execute` probe at time 61 (which moves it to Half-Open); the
failure count is still 5 and a failure at time 62 reopens the circuit. -/
theorem half_open_failure_reopens_witness :
    (applyCBOps {} [CBOp.fail 0, CBOp.fail 0, CBOp.fail 0, CBOp.fail 0, CBOp.fail 0,
        CBOp.check 61]).failure_count ≥ 5 ∧
    ((applyCBOps {} [CBOp.fail 0, CBOp.fail 0, CBOp.fail 0, CBOp.fail 0, CBOp.fail 0,
        CBOp.check 61]).record_failure 62).state = CircuitState.opened := by
  have h := half_open_failure_reopens {} [CBOp.fail 0, CBOp.fail 0, CBOp.fail 0, CBOp.fail 0,
    CBOp.fail 0, CBOp.check 61] 62 rfl (by decide) (by decide)
  exact ⟨h.1, h.2⟩

lemma applyAdd_results (r : MultiPowerDNSResult) (c : AddCall) :
    (applyAdd r c).results = r.results ++
      [⟨c.server_name, c.server_id, c.success, c.result, c.error, c.response_time_ms, c.now⟩] :=
  rfl

lemma foldl_applyAdd_success_count (calls : List AddCall) :
    ∀ r : MultiPowerDNSResult, (calls.foldl applyAdd r).success_count
      = r.success_count + calls.countP (fun c => c.success) := by
  induction calls with
  | nil => intro r; simp
  | cons c cs ih =>
    intro r
    rw [List.foldl_cons, ih, List.countP_cons]
    simp only [applyAdd, MultiPowerDNSResult.add_result]
    rcases h : c.success <;> simp [h]
    omega

lemma foldl_applyAdd_failure_count (calls : List AddCall) :
    ∀ r : MultiPowerDNSResult, (calls.foldl applyAdd r).failure_count
      = r.failure_count + calls.countP (fun c => !c.success) := by
  induction calls with
  | nil => intro r; simp
  | cons c cs ih =>
    intro r
    rw [List.foldl_cons, ih, List.countP_cons]
    simp only [applyAdd, MultiPowerDNSResult.add_result]
    rcases h : c.success <;> simp [h]
    omega

lemma foldl_applyAdd_total (calls : List AddCall) :
    ∀ r : MultiPowerDNSResult, (calls.foldl applyAdd r).total_servers
      = r.total_servers + calls.length := by
  induction calls with
  | nil => intro r; simp
  | cons c cs ih =>
    intro r
    rw [List.foldl_cons, ih]
    simp only [applyAdd, MultiPowerDNSResult.add_result]
    simp
    omega

lemma foldl_applyAdd_results_length (calls : List AddCall) :
    ∀ r : MultiPowerDNSResult, (calls.foldl applyAdd r).results.length
      = r.results.length + calls.length := by
  induction calls with
  | nil => intro r; simp
  | cons c cs ih =>
    intro r
    rw [List.foldl_cons, ih]
    simp only [applyAdd, MultiPowerDNSResult.add_result]
    simp
    omega

lemma buildResult_success_count (calls : List AddCall) :
    (buildResult calls).success_count = calls.countP (fun c => c.success) := by
  unfold buildResult
  rw [foldl_applyAdd_success_count]
  simp [MultiPowerDNSResult.empty]

lemma buildResult_failure_count (calls : List AddCall) :
    (buildResult calls).failure_count = calls.countP (fun c => !c.success) := by
  unfold buildResult
  rw [foldl_applyAdd_failure_count]
  simp [MultiPowerDNSResult.empty]

lemma buildResult_total (calls : List AddCall) :
    (buildResult calls).total_servers = calls.length := by
  unfold buildResult
  rw [foldl_applyAdd_total]
  simp [MultiPowerDNSResult.empty]

lemma buildResult_results_length (calls : List AddCall) :
    (buildResult calls).results.length = calls.length := by
  unfold buildResult
  rw [foldl_applyAdd_results_length]
  simp [MultiPowerDNSResult.empty]

/-- C10: each `add_result` call appends exactly one outcome entry and
bumps `total_servers` and exactly one of the two counters according to
the success flag; consequently, after any sequence of `add_result`
calls, `success_count + failure_count = total_servers = length of the
results list`. -/
theorem add_result_invariant :
    (∀ (r : MultiPowerDNSResult) (c : AddCall),
      (applyAdd r c).results = r.results ++
        [⟨c.server_name, c.server_id, c.success, c.result, c.error,
          c.response_time_ms, c.now⟩] ∧
      (applyAdd r c).total_servers = r.total_servers + 1 ∧
      (c.success = true → (applyAdd r c).success_count = r.success_count + 1 ∧
        (applyAdd r c).failure_count = r.failure_count) ∧
      (c.success = false → (applyAdd r c).failure_count = r.failure_count + 1 ∧
        (applyAdd r c).success_count = r.success_count)) ∧
    (∀ calls : List AddCall,
      (buildResult calls).success_count + (buildResult calls).failure_count
          = (buildResult calls).total_servers ∧
      (buildResult calls).total_servers = (buildResult calls).results.length) := by
  constructor
  · intro r c
    refine ⟨rfl, rfl, ?_, ?_⟩
    · intro h
      simp [applyAdd, MultiPowerDNSResult.add_result, h]
    · intro h
      simp [applyAdd, MultiPowerDNSResult.add_result, h]
  · intro calls
    rw [buildResult_success_count, buildResult_failure_count, buildResult_total,
      buildResult_results_length]
    constructor
    · have hlen := List.length_eq_countP_add_countP (fun c : AddCall => c.success) calls
      have hco : List.countP (fun c : AddCall => !c.success) calls
          = List.countP (fun c : AddCall => decide ¬c.success = true) calls := by
        apply List.countP_congr
        intro c _
        rcases h : c.success <;> simp [h]
      rw [hco]
      omega
    · rfl

/-- C10 witness: one successful `add_result` on a fresh result bumps
`success_count` and leaves `failure_count` unchanged. -/
theorem add_result_invariant_witness :
    (applyAdd MultiPowerDNSResult.empty ⟨"a", 1, true, none, none, 0, 0⟩).success_count
        = MultiPowerDNSResult.empty.success_count + 1 ∧
    (applyAdd MultiPowerDNSResult.empty ⟨"a", 1, true, none, none, 0, 0⟩).failure_count
        = MultiPowerDNSResult.empty.failure_count :=
  (add_result_invariant.1 MultiPowerDNSResult.empty ⟨"a", 1, true, none, none, 0, 0⟩).2.2.1 rfl

/-- C6: over every result built by a sequence of `add_result` calls, the
three classification properties are exactly the spec's count-level
definitions, equivalently characterised by the recorded success flags,
and all three are false for the empty (no-op) result. -/
theorem result_classification (calls : List AddCall) :
    ((buildResult calls).is_complete_success = true ↔
      ((buildResult calls).success_count = (buildResult calls).total_servers ∧
        0 < (buildResult calls).total_servers)) ∧
    ((buildResult calls).is_partial_success = true ↔
      (0 < (buildResult calls).success_count ∧
        (buildResult calls).success_count < (buildResult calls).total_servers)) ∧
    ((buildResult calls).is_complete_failure = true ↔
      ((buildResult calls).failure_count = (buildResult calls).total_servers ∧
        0 < (buildResult calls).total_servers)) ∧
    ((buildResult calls).is_complete_success = true ↔
      (calls ≠ [] ∧ ∀ c ∈ calls, c.success = true)) ∧
    ((buildResult calls).is_partial_success = true ↔
      ((∃ c ∈ calls, c.success = true) ∧ ∃ c ∈ calls, c.success = false)) ∧
    ((buildResult calls).is_complete_failure = true ↔
      (calls ≠ [] ∧ ∀ c ∈ calls, c.success = false)) ∧
    (calls = [] → (buildResult calls).is_complete_success = false ∧
      (buildResult calls).is_partial_success = false ∧
      (buildResult calls).is_complete_failure = false) := by
  have hs := buildResult_success_count calls
  have hf := buildResult_failure_count calls
  have ht := buildResult_total calls
  have hle := List.countP_le_length (p := fun c : AddCall => c.success) (l := calls)
  refine ⟨?_, ?_, ?_, ?_, ?_, ?_, ?_⟩
  · simp [MultiPowerDNSResult.is_complete_success]
  · simp [MultiPowerDNSResult.is_partial_success]
  · simp [MultiPowerDNSResult.is_complete_failure]
  · rw [MultiPowerDNSResult.is_complete_success, decide_eq_true_iff, hs, ht]
    constructor
    · rintro ⟨hcnt, hpos⟩
      refine ⟨by simpa [List.length_pos] using hpos, ?_⟩
      exact List.countP_eq_length.mp hcnt
    · rintro ⟨hne, hall⟩
      refine ⟨List.countP_eq_length.mpr hall, ?_⟩
      simpa [List.length_pos] using hne
  · rw [MultiPowerDNSResult.is_partial_success, decide_eq_true_iff, hs, ht]
    constructor
    · rintro ⟨hpos, hlt⟩
      constructor
      · simpa using List.countP_pos_iff.mp (by simpa using hpos)
      · by_contra hno
        push_neg at hno
        have hall : ∀ c ∈ calls, c.success = true := by
          intro c hc
          rcases h : c.success
          · exact absurd h (hno c hc)
          · rfl
        have := (List.countP_eq_length (p := fun c : AddCall => c.success)).mpr (by simpa using hall)
        omega
    · rintro ⟨⟨c1, hc1, hc1s⟩, ⟨c2, hc2, hc2s⟩⟩
      constructor
      · exact List.countP_pos_iff.mpr ⟨c1, hc1, by simp [hc1s]⟩
      · rcases Nat.lt_or_ge (List.countP (fun c : AddCall => c.success) calls)
          calls.length with h | h
        · exact h
        · have heq : List.countP (fun c : AddCall => c.success) calls = calls.length := by
            omega
          have := (List.countP_eq_length (p := fun c : AddCall => c.success)).mp heq c2 hc2
          simp [hc2s] at this
  · rw [MultiPowerDNSResult.is_complete_failure, decide_eq_true_iff, hf, ht]
    constructor
    · rintro ⟨hcnt, hpos⟩
      refine ⟨by simpa [List.length_pos] using hpos, ?_⟩
      intro c hc
      have := List.countP_eq_length.mp hcnt c hc
      simpa using this
    · rintro ⟨hne, hall⟩
      refine ⟨List.countP_eq_length.mpr ?_, by simpa [List.length_pos] using hne⟩
      intro c hc
      simp [hall c hc]
  · rintro rfl
    simp [buildResult, MultiPowerDNSResult.empty, MultiPowerDNSResult.is_complete_success,
      MultiPowerDNSResult.is_partial_success, MultiPowerDNSResult.is_complete_failure]

/-- C6 witness: one success and one failure give a partial success. -/
theorem result_classification_witness :
    (buildResult [⟨"a", 1, true, none, none, 0, 0⟩,
      ⟨"b", 2, false, none, none, 0, 0⟩]).is_partial_success = true :=
  (result_classification [⟨"a", 1, true, none, none, 0, 0⟩,
    ⟨"b", 2, false, none, none, 0, 0⟩]).2.2.2.2.1.mpr
    ⟨⟨⟨"a", 1, true, none, none, 0, 0⟩, by simp, rfl⟩,
     ⟨⟨"b", 2, false, none, none, 0, 0⟩, by simp, rfl⟩⟩

/-- A configured endpoint whose `is_active` flag is false. -/
def inactiveEndpoint : PowerDNSSettings :=
  { id := 1, name := "hidden", is_active := false }

/-- C3 (what the code does): `get_powerdns_settings` filters on
`is_active == True`, so an inactive endpoint never appears in its
result; in particular a table holding only an inactive endpoint yields
the empty list. -/
theorem get_powerdns_settings_excludes_inactive :
    (∀ (db : List PowerDNSSettings) (s : PowerDNSSettings), s.is_active = false →
      s ∉ get_powerdns_settings db) ∧
    get_powerdns_settings [inactiveEndpoint] = [] := by
  constructor
  · intro db s hs hmem
    unfold get_powerdns_settings at hmem
    have hmem' : s ∈ db.filter (fun s => s.is_active) :=
      (List.perm_insertionSort settingsOrder _).mem_iff.mp hmem
    have := (List.mem_filter.mp hmem').2
    rw [hs] at this
    exact Bool.false_ne_true this
  · decide

/-- C3 witness: the inactive endpoint of the concrete failing input is
not returned. -/
theorem get_powerdns_settings_excludes_inactive_witness :
    inactiveEndpoint ∉ get_powerdns_settings [inactiveEndpoint] :=
  get_powerdns_settings_excludes_inactive.1 [inactiveEndpoint] inactiveEndpoint rfl

/-- C7 (amended): in single-server mode with no resolvable default
server, every wrapper returns normally with a result carrying exactly
one failure outcome naming the missing server; that result has
`total_servers = 1` (a complete failure), not `total_servers = 0`. -/
theorem wrapper_no_default_reports_failure (db : List PowerDNSSettings)
    (op : PowerDNSSettings → Except String String) (fanout : MultiPowerDNSResult) (now : ℤ)
    (hm : should_use_multi_server db = false)
    (hd : get_default_powerdns_setting db = Except.ok none) :
    wrapper_on_all db op fanout now = Except.ok (no_default_result now) ∧
    (no_default_result now).results.length = 1 ∧
    (no_default_result now).total_servers = 1 ∧
    (no_default_result now).failure_count = 1 ∧
    (no_default_result now).success_count = 0 ∧
    (no_default_result now).is_complete_failure = true ∧
    (∀ e ∈ (no_default_result now).results,
      e.success = false ∧ e.server_name = "No default server" ∧
      e.error = some "No default PowerDNS server configured") := by
  refine ⟨?_, rfl, rfl, rfl, rfl, rfl, ?_⟩
  · unfold wrapper_on_all
    rw [hm, hd]
    simp
  · intro e he
    simp [no_default_result, MultiPowerDNSResult.add_result, MultiPowerDNSResult.empty] at he
    simp [he]

/-- C7 witness: empty configuration, concrete operation and clock. -/
theorem wrapper_no_default_reports_failure_witness :
    wrapper_on_all [] (fun _ => Except.ok "x") MultiPowerDNSResult.empty 0
        = Except.ok (no_default_result 0) ∧
    (no_default_result 0).total_servers = 1 :=
  have h := wrapper_no_default_reports_failure [] (fun _ => Except.ok "x")
    MultiPowerDNSResult.empty 0 (by decide) rfl
  ⟨h.1, h.2.2.1⟩

/-- C7 (counterexample): the no-default result of a wrapper call on an
empty configuration has `total_servers = 1`, so it is not a no-op
(`total == 0`) aggregated result as the claim states. -/
theorem wrapper_no_default_not_noop :
    wrapper_on_all [] (fun _ => Except.error "unused") MultiPowerDNSResult.empty 0
        = Except.ok (no_default_result 0) ∧
    ¬ (no_default_result 0).total_servers = 0 ∧
    (no_default_result 0).is_complete_failure = true :=
  ⟨rfl, by decide, by decide⟩

lemma firstActiveById_eq_none : ∀ (db : List PowerDNSSettings),
    firstActiveById db = none → ∀ x ∈ db, x.is_active = false := by
  intro db
  induction db with
  | nil =>
    intro _ x hx
    simp at hx
  | cons s rest ih =>
    intro h x hx
    unfold firstActiveById at h
    rcases hr : firstActiveById rest with _ | mr
    · rw [hr] at h
      simp only at h
      by_cases hs : s.is_active
      · simp [hs] at h
      · rcases List.mem_cons.mp hx with rfl | hx2
        · simpa using hs
        · exact ih hr x hx2
    · exfalso
      rw [hr] at h
      simp only at h
      by_cases hs : s.is_active
      · simp [hs] at h
        split at h <;> simp at h
      · simp [hs] at h

lemma firstActiveById_mem_min : ∀ (db : List PowerDNSSettings) (m : PowerDNSSettings),
    firstActiveById db = some m →
    m ∈ db ∧ m.is_active = true ∧ ∀ x ∈ db, x.is_active = true → m.id ≤ x.id := by
  intro db
  induction db with
  | nil =>
    intro m h
    simp [firstActiveById] at h
  | cons s rest ih =>
    intro m h
    unfold firstActiveById at h
    rcases hr : firstActiveById rest with _ | mr
    · rw [hr] at h
      simp only at h
      by_cases hs : s.is_active
      · simp [hs] at h
        subst h
        refine ⟨List.mem_cons_self _ _, hs, ?_⟩
        intro x hx hxa
        rcases List.mem_cons.mp hx with rfl | hx2
        · exact le_refl _
        · exact absurd hxa (by simp [firstActiveById_eq_none rest hr x hx2])
      · simp [hs] at h
    · rw [hr] at h
      simp only at h
      obtain ⟨hmem, hact, hmin⟩ := ih mr hr
      by_cases hs : s.is_active
      · simp [hs] at h
        by_cases hid : s.id ≤ mr.id
        · simp [hid] at h
          subst h
          refine ⟨List.mem_cons_self _ _, hs, ?_⟩
          intro x hx hxa
          rcases List.mem_cons.mp hx with rfl | hx2
          · exact le_refl _
          · exact le_trans hid (hmin x hx2 hxa)
        · simp [hid] at h
          subst h
          refine ⟨List.mem_cons_of_mem _ hmem, hact, ?_⟩
          intro x hx hxa
          rcases List.mem_cons.mp hx with rfl | hx2
          · omega
          · exact hmin x hx2 hxa
      · simp [hs] at h
        subst h
        refine ⟨List.mem_cons_of_mem _ hmem, hact, ?_⟩
        intro x hx hxa
        rcases List.mem_cons.mp hx with rfl | hx2
        · exact absurd hxa (by simp [hs])
        · exact hmin x hx2 hxa

lemma should_use_multi_server_eq (db : List PowerDNSSettings) :
    should_use_multi_server db
      = decide ((db.countP fun s => s.multi_server_mode && s.is_active) > 1) := by
  have h1 : ((get_powerdns_settings db).filter
      fun s => s.multi_server_mode && s.is_active).length
      = db.countP fun s => s.multi_server_mode && s.is_active := by
    rw [← List.countP_eq_length_filter]
    unfold get_powerdns_settings
    rw [(List.perm_insertionSort settingsOrder _).countP_eq]
    rw [List.countP_filter]
    apply List.countP_congr
    intro s _
    rcases s.multi_server_mode <;> rcases s.is_active <;> rfl
  unfold should_use_multi_server
  rw [h1]

/-- C5: single-server mode is selected exactly when fewer than two
configured endpoints have `multi_server_mode` and `is_active` both set;
in that mode the endpoint used is the flagged active default when one
exists (assuming the registry invariant of at most one flagged active
default), and otherwise the active endpoint with the lowest id. -/
theorem single_mode_selection (db : List PowerDNSSettings)
    (hdef : (db.filter fun s => s.is_default && s.is_active).length ≤ 1) :
    (should_use_multi_server db = false ↔
      (db.countP fun s => s.multi_server_mode && s.is_active) < 2) ∧
    (∀ d ∈ db, d.is_default = true → d.is_active = true →
      get_default_powerdns_setting db = Except.ok (some d) ∧
      (should_use_multi_server db = false →
        ∀ (op : PowerDNSSettings → Except String String)
          (fanout : MultiPowerDNSResult) (now : ℤ),
          wrapper_on_all db op fanout now
            = Except.ok (single_mode_result d (op d) now))) ∧
    ((∀ d ∈ db, ¬(d.is_default = true ∧ d.is_active = true)) →
      ∀ m, get_default_powerdns_setting db = Except.ok (some m) →
        m ∈ db ∧ m.is_active = true ∧ ∀ x ∈ db, x.is_active = true → m.id ≤ x.id) := by
  refine ⟨?_, ?_, ?_⟩
  · rw [should_use_multi_server_eq, decide_eq_false_iff_not]
    omega
  · intro d hd hddef hdact
    have hmemf : d ∈ db.filter (fun s => s.is_default && s.is_active) :=
      List.mem_filter.mpr ⟨hd, by simp [hddef, hdact]⟩
    have hfilter : db.filter (fun s => s.is_default && s.is_active) = [d] := by
      rcases hf : db.filter (fun s => s.is_default && s.is_active) with _ | ⟨x, rest⟩
      · rw [hf] at hmemf
        simp at hmemf
      · rcases rest with _ | ⟨y, rest2⟩
        · rw [hf] at hmemf
          simp at hmemf
          rw [hmemf]
          exact hf
        · rw [hf] at hdef
          simp at hdef
    have hget : get_default_powerdns_setting db = Except.ok (some d) := by
      unfold get_default_powerdns_setting
      rw [hfilter]
    refine ⟨hget, ?_⟩
    intro hm op fanout now
    unfold wrapper_on_all
    rw [hm, hget]
    simp
  · intro hnone m hm
    have hfe : db.filter (fun s => s.is_default && s.is_active) = [] := by
      rw [List.filter_eq_nil_iff]
      intro a ha
      simp only [Bool.and_eq_true]
      exact hnone a ha
    unfold get_default_powerdns_setting at hm
    rw [hfe] at hm
    simp only [Except.ok.injEq] at hm
    exact firstActiveById_mem_min db m hm

/-- The single flagged, active default endpoint of the witness
configuration. -/
def defaultEndpoint : PowerDNSSettings :=
  { id := 1, name := "a", is_default := true, is_active := true }

/-- C5 witness: with one configured endpoint flagged as default, the
wrapper runs the operation exactly on that endpoint. -/
theorem single_mode_selection_witness :
    get_default_powerdns_setting [defaultEndpoint] = Except.ok (some defaultEndpoint) ∧
    wrapper_on_all [defaultEndpoint] (fun _ => Except.ok "done") MultiPowerDNSResult.empty 0
      = Except.ok (single_mode_result defaultEndpoint (Except.ok "done") 0) := by
  have h := (single_mode_selection [defaultEndpoint] (by decide)).2.1 defaultEndpoint
    (by simp) rfl rfl
  exact ⟨h.1, h.2 (by decide) _ _ _⟩

lemma zip_map_self {α β : Type} (g : α → β) :
    ∀ l : List α, l.zip (l.map g) = l.map fun a => (a, g a) := by
  intro l
  induction l with
  | nil => rfl
  | cons a l ih => simp [ih]

lemma map_zip_self {α β : Type} (f : α → β) :
    ∀ l : List α, (l.map f).zip l = l.map fun a => (f a, a) := by
  intro l
  induction l with
  | nil => rfl
  | cons a l ih => simp [ih]

/-- The `results` entry recorded for one task/result pair. -/
def collectEntry (now : ℤ)
    (t : ((String × Int) × TaskOutcome) ×
      Except String (Bool × Option String × Option String × ℤ)) : ResultEntry :=
  match t.2 with
  | Except.ok (ok, res, err, rt) => ⟨t.1.1.1, t.1.1.2, ok, res, err, rt, now⟩
  | Except.error e => ⟨t.1.1.1, t.1.1.2, false, none, some e, 0, now⟩

lemma collect_results (now : ℤ) :
    ∀ (l : List (((String × Int) × TaskOutcome) ×
        Except String (Bool × Option String × Option String × ℤ)))
      (acc : MultiPowerDNSResult),
    (l.foldl (collectStep now) acc).results = acc.results ++ l.map (collectEntry now) := by
  intro l
  induction l with
  | nil =>
    intro acc
    simp
  | cons t l ih =>
    intro acc
    rw [List.foldl_cons, ih, List.map_cons]
    have hstep : (collectStep now acc t).results = acc.results ++ [collectEntry now t] := by
      obtain ⟨ti, te⟩ := t
      rcases te with e | ⟨ok, res, err, rt⟩ <;> rfl
    rw [hstep]
    simp

lemma process_results_timeout_results (tasks : List ((String × Int) × TaskOutcome)) (now : ℤ) :
    (process_results tasks true now).results
      = tasks.map fun t =>
          (⟨t.1.1, t.1.2, false, none, some "Operation timed out", 0, now⟩ : ResultEntry) := by
  unfold process_results
  simp only [if_true]
  rw [zip_map_self, collect_results, List.map_map]
  simp [MultiPowerDNSResult.empty]
  intro a b te _
  rfl

lemma process_results_completed_results (tasks : List ((String × Int) × TaskOutcome)) (now : ℤ) :
    (process_results tasks false now).results
      = tasks.map fun t =>
          match t.2 with
          | TaskOutcome.completed ok res err rt =>
              (⟨t.1.1, t.1.2, ok, res, err, rt, now⟩ : ResultEntry)
          | TaskOutcome.pending =>
              ⟨t.1.1, t.1.2, false, none, some "Operation timed out", 0, now⟩ := by
  unfold process_results
  simp only [Bool.false_eq_true, if_false]
  rw [zip_map_self, collect_results, List.map_map]
  simp [MultiPowerDNSResult.empty]
  intro a b te _
  rcases te with ⟨ok, res, err, rt⟩ | _ <;> rfl

/-- C1 (amended): when the overall fan-out timeout of
`execute_on_all_servers` expires, EVERY per-endpoint call — the
still-pending ones and also the ones that had already completed — is
recorded in the aggregated result as a failure with the
"Operation timed out" error and response time 0; per-endpoint outcomes
are preserved (each completed call keeping its real success flag,
payload/error and measured latency) only when the overall timeout does
not expire. -/
theorem timeout_discards_all_outcomes (tasks : List ((String × Int) × TaskOutcome)) (now : ℤ) :
    ((process_results tasks true now).results.length = tasks.length ∧
     ∀ e ∈ (process_results tasks true now).results,
       e.success = false ∧ e.error = some "Operation timed out" ∧ e.response_time_ms = 0) ∧
    ((process_results tasks false now).results.length = tasks.length ∧
     ∀ p ∈ ((process_results tasks false now).results.zip tasks),
       ∀ ok res err rt, p.2.2 = TaskOutcome.completed ok res err rt →
         p.1 = ⟨p.2.1.1, p.2.1.2, ok, res, err, rt, now⟩) := by
  have ht := process_results_timeout_results tasks now
  have hc := process_results_completed_results tasks now
  refine ⟨⟨?_, ?_⟩, ?_, ?_⟩
  · rw [ht, List.length_map]
  · intro e he
    rw [ht] at he
    obtain ⟨t, _, rfl⟩ := List.mem_map.mp he
    exact ⟨rfl, rfl, rfl⟩
  · rw [hc, List.length_map]
  · intro p hp
    rw [hc, map_zip_self] at hp
    obtain ⟨t, _, rfl⟩ := List.mem_map.mp hp
    obtain ⟨ti, te⟩ := t
    intro ok res err rt hco
    simp only at hco
    subst hco
    rfl

/-- C1 witness: two endpoints, one already completed successfully with
latency 5 and one still pending, under an expired overall timeout; and
the same completed endpoint under no timeout keeping its outcome. -/
theorem timeout_discards_all_outcomes_witness :
    (process_results [(("a", 1), TaskOutcome.completed true (some "ok") none 5),
        (("b", 2), TaskOutcome.pending)] true 0).results.length = 2 ∧
    ((⟨"b", 2, false, none, some "Operation timed out", 0, 0⟩ : ResultEntry).success = false ∧
      (⟨"b", 2, false, none, some "Operation timed out", 0, 0⟩ : ResultEntry).error
        = some "Operation timed out" ∧
      (⟨"b", 2, false, none, some "Operation timed out", 0, 0⟩ : ResultEntry).response_time_ms
        = 0) ∧
    ((⟨"a", 1, true, some "ok", none, 5, 0⟩ : ResultEntry)
        = ⟨"a", 1, true, some "ok", none, 5, 0⟩) := by
  have h := timeout_discards_all_outcomes
    [(("a", 1), TaskOutcome.completed true (some "ok") none 5),
     (("b", 2), TaskOutcome.pending)] 0
  exact ⟨h.1.1,
    h.1.2 ⟨"b", 2, false, none, some "Operation timed out", 0, 0⟩ (by decide),
    h.2.2 (⟨"a", 1, true, some "ok", none, 5, 0⟩,
      (("a", 1), TaskOutcome.completed true (some "ok") none 5)) (by decide)
      true (some "ok") none 5 rfl⟩

/-- C1 (counterexample): an endpoint call that had already COMPLETED
with success (payload "ok", latency 5 ms) before the fan-out timeout
expired is nevertheless recorded as a failure with the
"Operation timed out" error — the completed call does not keep its real
outcome, refuting the claim as stated. -/
theorem timeout_overwrites_completed_outcome :
    (process_results [(("a", 1), TaskOutcome.completed true (some "ok") none 5)] true 0).results
      = [⟨"a", 1, false, none, some "Operation timed out", 0, 0⟩] ∧
    (process_results [(("a", 1), TaskOutcome.completed true (some "ok") none 5)]
      true 0).success_count = 0 := by
  decide
